import Mathlib

/-!
Shallow embedding of the Lua personalization decision engine
(src/ai-personalize.js, src/personalization.js, src/storage/weighted-history.js)
together with proofs about its weighted-history store, model-gateway retry
loop, response validation, cache round trip and decision policy.

JS objects are modelled as insertion-ordered association lists of own
properties; JS truthiness of strings and numbers (empty string and zero are
falsy) is modelled explicitly at each site where the source relies on it.
localStorage and the AI gateway are modelled as explicit state threaded
through the functions.
-/

namespace LuaPkg

/-! ## JS object helpers -/

/-- Property lookup on a JS object modelled as an insertion-ordered
association list of own properties. -/
def jsGet {α : Type} (obj : List (String × α)) (k : String) : Option α :=
  (obj.find? (fun p => p.1 == k)).map (fun p => p.2)

/-- Property assignment: an existing key keeps its position (JS object /
localStorage semantics), a new key is appended. -/
def jsSet {α : Type} : List (String × α) → String → α → List (String × α)
  | [], k, v => [(k, v)]
  | (k0, v0) :: rest, k, v =>
    if k0 == k then (k0, v) :: rest else (k0, v0) :: jsSet rest k v

/-- Property deletion (localStorage.removeItem). -/
def jsRemove {α : Type} : List (String × α) → String → List (String × α)
  | [], _ => []
  | (k0, v0) :: rest, k =>
    if k0 == k then rest else (k0, v0) :: jsRemove rest k

/-- Models the JS idiom of x-or-default for an optional number: zero is falsy. -/
def orDefaultNat (o : Option Nat) (d : Nat) : Nat :=
  match o with
  | some n => if n = 0 then d else n
  | none => d

/-- Models the JS idiom of x-or-default for an optional numeric value: zero is falsy. -/
def orDefaultRat (o : Option ℚ) (d : ℚ) : ℚ :=
  match o with
  | some q => if q = 0 then d else q
  | none => d

/-- Models the JS idiom of x-or-default for an optional string: the empty string is falsy. -/
def orDefaultStr (o : Option String) (d : String) : String :=
  match o with
  | some s => if s = "" then d else s
  | none => d

/-- Models the JS idiom of x-or-null for an optional string. -/
def truthyOptStr (o : Option String) : Option String :=
  match o with
  | some s => if s = "" then none else some s
  | none => none

/-- Models the JS idiom of x-or-null for an optional numeric value. -/
def truthyOptRat (o : Option ℚ) : Option ℚ :=
  match o with
  | some q => if q = 0 then none else some q
  | none => none

/-! ## Gateway retry loop (ai-personalize.js callWithRetry)

The transport is abstracted as a function from the attempt index to the
outcome of that attempt; besides the final outcome we record the list of
backoff delays (in milliseconds) the loop sleeps through, which also counts
the retries performed. -/

/-- The recursive retry loop of callWithRetry, structured on the remaining
retry budget: on failure with budget left, wait 500 * 2 ^ attempt ms and
try again; with the budget exhausted the last error is rethrown unchanged. -/
def callWithRetryAux {E A : Type} (gateway : Nat → Except E A) :
    (fuel attempt : Nat) → Except E A × List Nat
  | fuel, attempt =>
    match gateway attempt with
    | Except.ok a => (Except.ok a, [])
    | Except.error e =>
      match fuel with
      | 0 => (Except.error e, [])
      | fuel2 + 1 =>
        let rest := callWithRetryAux gateway fuel2 (attempt + 1)
        (rest.1, 500 * 2 ^ attempt :: rest.2)

/-- callWithRetry with the signature of the source: the remaining budget
maxRetries - attempt is the structural fuel, so that the source guard
attempt < maxRetries is exactly the fuel being positive (see
callWithRetry_recurrence). -/
def callWithRetry {E A : Type} (gateway : Nat → Except E A)
    (maxRetries attempt : Nat) : Except E A × List Nat :=
  callWithRetryAux gateway (maxRetries - attempt) attempt

theorem callWithRetry_recurrence {E A : Type} (gateway : Nat → Except E A)
    (maxRetries attempt : Nat) :
    callWithRetry gateway maxRetries attempt =
      match gateway attempt with
      | Except.ok a => (Except.ok a, [])
      | Except.error e =>
        if attempt < maxRetries then
          ((callWithRetry gateway maxRetries (attempt + 1)).1,
            500 * 2 ^ attempt :: (callWithRetry gateway maxRetries (attempt + 1)).2)
        else (Except.error e, []) := by
  unfold callWithRetry
  rw [callWithRetryAux]
  cases gateway attempt with
  | ok a => rfl
  | error e =>
    by_cases hlt : attempt < maxRetries
    · have h1 : maxRetries - attempt = (maxRetries - (attempt + 1)) + 1 := by omega
      rw [h1]
      simp [hlt]
    · have h1 : maxRetries - attempt = 0 := by omega
      rw [h1]
      simp [hlt]

theorem callWithRetryAux_allFail {E A : Type} (gateway : Nat → Except E A) (e : Nat → E)
    (hfail : ∀ k, gateway k = Except.error (e k)) :
    ∀ fuel a, callWithRetryAux gateway fuel a =
      (Except.error (e (a + fuel)), (List.range fuel).map (fun k => 500 * 2 ^ (a + k))) := by
  intro fuel
  induction fuel with
  | zero =>
    intro a
    rw [callWithRetryAux, hfail a]
    simp
  | succ n ih =>
    intro a
    rw [callWithRetryAux, hfail a]
    simp only [ih (a + 1)]
    have ha : a + 1 + n = a + (n + 1) := by omega
    rw [ha]
    simp only [List.range_succ_eq_map, List.map_cons, List.map_map]
    refine congrArg (Prod.mk _) (congrArg₂ List.cons (by norm_num) ?_)
    apply List.map_congr_left
    intro k _
    simp only [Function.comp_apply, Nat.succ_eq_add_one]
    ring_nf

theorem callWithRetryAux_length_le {E A : Type} (gateway : Nat → Except E A) :
    ∀ fuel a, ((callWithRetryAux gateway fuel a).2).length ≤ fuel := by
  intro fuel
  induction fuel with
  | zero =>
    intro a
    rw [callWithRetryAux]
    cases gateway a with
    | ok v => simp
    | error e => simp
  | succ n ih =>
    intro a
    rw [callWithRetryAux]
    cases gateway a with
    | ok v => simp
    | error e =>
      simp only [List.length_cons]
      have := ih (a + 1)
      omega

/-- C8: callWithRetry performs the initial attempt plus at most maxRetries
additional attempts, waiting 500 * 2 ^ k milliseconds before the k-th retry
(500, 1000, 2000, ... ms), and when the budget is exhausted the error of the
final attempt is propagated to the caller unchanged. -/
theorem claim_C8_callWithRetry {E A : Type} (gateway : Nat → Except E A) (m : Nat)
    (e : Nat → E) (hfail : ∀ k, gateway k = Except.error (e k)) :
    callWithRetry gateway m 0 =
      (Except.error (e m), (List.range m).map (fun k => 500 * 2 ^ k))
    ∧ ∀ g2 : Nat → Except E A, ((callWithRetry g2 m 0).2).length ≤ m := by
  constructor
  · have := callWithRetryAux_allFail gateway e hfail m 0
    unfold callWithRetry
    simpa using this
  · intro g2
    have := callWithRetryAux_length_le g2 m 0
    unfold callWithRetry
    simpa using this

/-- C8 witness: a transport failing every attempt with retry budget 2 makes
three attempts, sleeps 500 then 1000 ms, and surfaces the third error. -/
theorem claim_C8_callWithRetry_witness :
    callWithRetry (fun k => (Except.error k : Except Nat Unit)) 2 0 =
      (Except.error 2, (List.range 2).map (fun k => 500 * 2 ^ k)) :=
  (claim_C8_callWithRetry (fun k => (Except.error k : Except Nat Unit)) 2
    (fun k => k) (fun _ => rfl)).1

/-! ## Exponential-decay weight (weighted-history.js calculateWeight)

calculateWeight computes decayRate ^ max(0, (now - timestamp) / msPerDay)
with real exponentiation (JS Math.pow); it is modelled over the reals. -/

/-- Milliseconds per day, the divisor turning an age into days. -/
noncomputable def msPerDay : ℝ := 1000 * 60 * 60 * 24

/-- Weight of a visit of the given timestamp at clock time now:
decayRate raised to the age in days, clamped below at age zero. -/
noncomputable def calculateWeight (now timestamp : ℝ) (decayRate : ℝ) : ℝ :=
  decayRate ^ (max 0 ((now - timestamp) / msPerDay))

theorem calculateWeight_age (a r : ℝ) (ha : 0 ≤ a) :
    calculateWeight (a * msPerDay) 0 r = r ^ a := by
  unfold calculateWeight
  have hms : msPerDay ≠ 0 := by unfold msPerDay; norm_num
  rw [sub_zero, mul_div_assoc, div_self hms, mul_one, max_eq_right ha]

/-- C7: the visit weight is decayRate ^ ageInDays: it equals r ^ a for every
age a ≥ 0, is 1 at age zero for every decay rate, is monotonically
non-increasing in the age for r in (0, 1], and depends on the visit only
through its age. -/
theorem claim_C7_weight (r a b : ℝ) (hr0 : 0 < r) (hr1 : r ≤ 1) (ha : 0 ≤ a)
    (hab : a ≤ b) :
    calculateWeight (a * msPerDay) 0 r = r ^ a
    ∧ (∀ r2 t : ℝ, calculateWeight t t r2 = 1)
    ∧ calculateWeight (b * msPerDay) 0 r ≤ calculateWeight (a * msPerDay) 0 r
    ∧ (∀ now1 ts1 now2 ts2 : ℝ, now1 - ts1 = now2 - ts2 →
        calculateWeight now1 ts1 r = calculateWeight now2 ts2 r) := by
  refine ⟨calculateWeight_age a r ha, ?_, ?_, ?_⟩
  · intro r2 t
    unfold calculateWeight
    simp [Real.rpow_zero]
  · rw [calculateWeight_age a r ha, calculateWeight_age b r (le_trans ha hab)]
    exact Real.rpow_le_rpow_of_exponent_ge hr0 hr1 hab
  · intro now1 ts1 now2 ts2 hage
    unfold calculateWeight
    rw [hage]

/-- C7 witness: instantiation at decay rate 1/2 and ages 0 and 1. -/
theorem claim_C7_weight_witness :
    calculateWeight ((0 : ℝ) * msPerDay) 0 (1 / 2) = (1 / 2 : ℝ) ^ (0 : ℝ)
    ∧ calculateWeight ((1 : ℝ) * msPerDay) 0 (1 / 2)
        ≤ calculateWeight ((0 : ℝ) * msPerDay) 0 (1 / 2) :=
  ⟨(claim_C7_weight (1 / 2) 0 1 (by norm_num) (by norm_num) le_rfl (by norm_num)).1,
   (claim_C7_weight (1 / 2) 0 1 (by norm_num) (by norm_num) le_rfl
      (by norm_num)).2.2.1⟩

/-! ## Data model (personalization.js / ai-personalize.js) -/

/-- A content template from the variant catalog of the caller. -/
structure Template where
  headline : String := ""
  subheadline : String := ""
  ctaLabel : String := ""
  ctaLink : Option String := none
  image : Option String := none
deriving DecidableEq, Repr

/-- Referrer portion of a VisitContext. -/
structure Referrer where
  source : String := "direct"
  category : String := "direct"
  url : String := ""
deriving DecidableEq, Repr

/-- Device-class portion of a VisitContext. -/
structure UserAgent where
  isMobile : Bool := false
  isTablet : Bool := false
  isDesktop : Bool := true
deriving DecidableEq, Repr

/-- The visitor context handed to the decision engine. -/
structure VisitContext where
  utm : List (String × String) := []
  referrer : Option Referrer := none
  userAgent : Option UserAgent := none
  timestamp : Int := 0
  hasUTM : Bool := false
  primaryIntent : String := "default"
deriving DecidableEq, Repr

/-- The aiResponse record attached to AI-sourced decisions. -/
structure AIMeta where
  confidence : Option ℚ
  reasoning : Option String
  latency : Int
  model : String
  mode : String
  cached : Bool
deriving DecidableEq, Repr

/-- A decision produced by the engine. -/
structure Decision where
  template : Option Template
  intent : String
  source : String
  context : VisitContext := {}
  aiResponse : Option AIMeta := none
  error : Option String := none
deriving DecidableEq, Repr

/-! ## Weighted-history store (storage/weighted-history.js)

The backing localStorage slot is modelled as an explicit store that is
either unavailable (read and write both fail, silently) or holds the parsed
history record; the UUID generator is modelled as a stream of fresh
identifiers indexed by a counter; Date.now() is the clock of the state. The
weight computation feeding the weighted view is the real-valued
calculateWeight rounded to three decimals by the source
(Math.round(w * 1000) / 1000), hence always a rational; it enters this
model as the parameter calcW taking the decay rate and a timestamp. -/

/-- Minimized context persisted with a visit (recordVisit keeps only the
UTM map, referrer source and category, and a derived device class). -/
structure MinimalContext where
  utm : Option (List (String × String)) := none
  referrer : Option (String × String) := none
  device : Option String := none
deriving DecidableEq, Repr

/-- A persisted history entry. -/
structure Visit where
  timestamp : Int
  context : MinimalContext := {}
  intent : String := "unknown"
  selectedVariant : Option String := none
  source : String := "unknown"
  aiDecision : Bool := false
deriving DecidableEq, Repr

/-- The persisted history record. -/
structure History where
  userId : String
  createdAt : Int
  visits : List Visit
  preferences : List (String × ℚ)
deriving DecidableEq, Repr

/-- The localStorage slot backing the history store: avail is
isLocalStorageAvailable, data the parsed stored record (none when the key
is absent or its content malformed). -/
structure HStore where
  avail : Bool
  data : Option History
deriving Repr

/-- State threaded through the history-store operations. -/
structure HState where
  storage : HStore
  uuids : Nat → String
  next : Nat
  now : Int

/-- readFromStorage: a read on unavailable storage yields null. -/
def readFromStorage (s : HState) : Option History :=
  if s.storage.avail then s.storage.data else none

/-- writeToStorage: a write on unavailable storage is a silent no-op
returning false. -/
def writeToStorage (s : HState) (h : History) : HState × Bool :=
  if s.storage.avail then
    ({ s with storage := { s.storage with data := some h } }, true)
  else
    (s, false)

/-- getHistory: return the stored record, or synthesize a fresh one (new
UUID, empty visits and preferences) and persist it immediately. -/
def getHistory (s : HState) : History × HState :=
  match readFromStorage s with
  | some h => (h, s)
  | none =>
    let h : History :=
      { userId := s.uuids s.next, createdAt := s.now, visits := [], preferences := [] }
    let s1 : HState := { s with next := s.next + 1 }
    (h, (writeToStorage s1 h).1)

/-- A visit of the weighted view, carrying its decayed weight. -/
structure WeightedVisit where
  timestamp : Int
  weight : ℚ
  intent : String
  selectedVariant : Option String
  source : String
  aiDecision : Bool
  context : MinimalContext
deriving DecidableEq, Repr

/-- Option bag shared by recordVisit and buildWeightedContext (the source
passes the recordVisit options object straight through). -/
structure WeightedOptions where
  decayRate : Option ℚ := none
  maxWeighted : Option Nat := none
  maxHistorySize : Option Nat := none
deriving Repr

/-- Default per-day decay rate (DEFAULT_DECAY_RATE). -/
def defaultDecayRate : ℚ := 9 / 10

/-- Default history bound (DEFAULT_MAX_HISTORY). -/
def defaultMaxHistory : Nat := 10

/-- Default size of the weighted view (DEFAULT_MAX_WEIGHTED). -/
def defaultMaxWeighted : Nat := 5

/-- Lift a stored visit into the weighted view, defaulting falsy fields
exactly as buildWeightedContext does. -/
def toWeighted (calcW : ℚ → Int → ℚ) (decayRate : ℚ) (v : Visit) : WeightedVisit :=
  { timestamp := v.timestamp
    weight := calcW decayRate v.timestamp
    intent := if v.intent = "" then "unknown" else v.intent
    selectedVariant := truthyOptStr v.selectedVariant
    source := if v.source = "" then "unknown" else v.source
    aiDecision := v.aiDecision
    context := v.context }

/-- Comparator of the descending weight sort (the source sorts with the
comparator b.weight - a.weight; JS sort is stable, hence mergeSort). -/
def weightDesc (a b : WeightedVisit) : Bool := decide (b.weight ≤ a.weight)

/-- buildWeightedContext: weight every visit, sort by weight descending
(stably) and keep the top maxWeighted results. -/
def buildWeightedContext (calcW : ℚ → Int → ℚ) (history : History)
    (options : WeightedOptions) : List WeightedVisit :=
  let decayRate := orDefaultRat options.decayRate defaultDecayRate
  let maxWeighted := orDefaultNat options.maxWeighted defaultMaxWeighted
  if history.visits.isEmpty then []
  else
    (((history.visits.map (toWeighted calcW decayRate)).mergeSort weightDesc).take
      maxWeighted)

/-- Add w to the running score of an intent, keeping object insertion order. -/
def bumpScore : List (String × ℚ) → String → ℚ → List (String × ℚ)
  | [], k, w => [(k, w)]
  | (k0, v0) :: rest, k, w =>
    if k0 = k then (k0, v0 + w) :: rest else (k0, v0) :: bumpScore rest k w

/-- aggregatePreferences: sum weights per intent, skipping the sentinel
intents unknown and default (and a falsy intent). -/
def aggregatePreferences (weightedVisits : List WeightedVisit) : List (String × ℚ) :=
  weightedVisits.foldl
    (fun scores v =>
      if v.intent = "" ∨ v.intent = "unknown" ∨ v.intent = "default" then scores
      else bumpScore scores v.intent v.weight)
    []

/-- Caller input to recordVisit. -/
structure VisitInput where
  context : Option VisitContext := none
  intent : Option String := none
  selectedVariant : Option String := none
  source : Option String := none
  aiDecision : Bool := false

/-- The minimized copy of the context persisted by recordVisit. -/
def minimizeContext (ctx : Option VisitContext) : MinimalContext :=
  match ctx with
  | none => {}
  | some c =>
    { utm := some c.utm
      referrer := (c.referrer).map (fun r => (r.source, r.category))
      device := (c.userAgent).map (fun ua =>
        if ua.isMobile then "mobile" else if ua.isTablet then "tablet" else "desktop") }

/-- The Visit recordVisit builds from its input at the current clock. -/
def mkVisit (now : Int) (visitData : VisitInput) : Visit :=
  { timestamp := now
    context := minimizeContext visitData.context
    intent := orDefaultStr visitData.intent "unknown"
    selectedVariant := truthyOptStr visitData.selectedVariant
    source := orDefaultStr visitData.source "unknown"
    aiDecision := visitData.aiDecision }

/-- Trim the visit log to the most recent maxHistorySize entries. -/
def trimVisits (maxHistorySize : Nat) (visits : List Visit) : List Visit :=
  if visits.length > maxHistorySize then
    visits.drop (visits.length - maxHistorySize)
  else visits

/-- recordVisit: load the history, append the new minimized visit, trim to
the bound, recompute preferences from the current weighted view, persist. -/
def recordVisit (calcW : ℚ → Int → ℚ) (visitData : VisitInput)
    (options : WeightedOptions) (s : HState) : History × HState :=
  let maxHistorySize := orDefaultNat options.maxHistorySize defaultMaxHistory
  let hs := getHistory s
  let visit := mkVisit hs.2.now visitData
  let visits2 := trimVisits maxHistorySize (hs.1.visits ++ [visit])
  let trimmed : History := { hs.1 with visits := visits2 }
  let newHistory : History :=
    { trimmed with
      preferences := aggregatePreferences (buildWeightedContext calcW trimmed options) }
  (newHistory, (writeToStorage hs.2 newHistory).1)

/-- A history state whose backing storage is unavailable, with a concrete
stream of fresh UUIDs. -/
def hStateUnavailable : HState :=
  { storage := { avail := false, data := none }
    uuids := fun n => toString n
    next := 0
    now := 1 }

/-- C9 counterexample: with the backing storage unavailable, getHistory
synthesizes a fresh record on every call, so two loads with no intervening
recordVisit or clear return different userIds: the store does not keep an
ephemeral in-memory record. -/
theorem claim_C9_counterexample :
    ¬ ((getHistory hStateUnavailable).1.userId =
        (getHistory (getHistory hStateUnavailable).2).1.userId) := by
  decide

/-- C9 amended: when the backing storage is available, calling getHistory
twice with no intervening recordVisit or clear returns a History with an
identical userId both times (a read on unavailable storage still returns a
History rather than raising, but with a fresh userId each time). -/
theorem claim_C9_amended (s : HState) (h : s.storage.avail = true) :
    (getHistory s).1.userId = (getHistory (getHistory s).2).1.userId := by
  cases hd : s.storage.data with
  | some h0 => simp [getHistory, readFromStorage, writeToStorage, h, hd]
  | none => simp [getHistory, readFromStorage, writeToStorage, h, hd]

/-- C9 witness: the amended idempotence at a concrete available store. -/
theorem claim_C9_amended_witness :
    ({ storage := { avail := true, data := none }
       uuids := fun n => toString n
       next := 0
       now := 1 } : HState).storage.avail = true
    ∧ (getHistory { storage := { avail := true, data := none }
                    uuids := fun n => toString n
                    next := 0
                    now := 1 }).1.userId =
        (getHistory (getHistory { storage := { avail := true, data := none }
                                  uuids := fun n => toString n
                                  next := 0
                                  now := 1 }).2).1.userId :=
  ⟨rfl, claim_C9_amended _ rfl⟩

/-- A sequence of recordVisit calls with fixed options, as issued by
repeated page views. -/
def runVisits (calcW : ℚ → Int → ℚ) (options : WeightedOptions)
    (inputs : List VisitInput) (s : HState) : HState :=
  inputs.foldl (fun st v => (recordVisit calcW v options st).2) s

theorem trimVisits_eq_drop (n : Nat) (xs : List Visit) :
    trimVisits n xs = xs.drop (xs.length - n) := by
  unfold trimVisits
  split
  · rfl
  · next hle =>
    have : xs.length - n = 0 := by omega
    rw [this, List.drop_zero]

theorem trimVisits_length_le (n : Nat) (xs : List Visit) :
    (trimVisits n xs).length ≤ n := by
  rw [trimVisits_eq_drop, List.length_drop]
  omega

theorem trimVisits_idem_append (n : Nat) (hn : 1 ≤ n) (xs : List Visit) (x : Visit) :
    trimVisits n (trimVisits n xs ++ [x]) = trimVisits n (xs ++ [x]) := by
  rw [trimVisits_eq_drop, trimVisits_eq_drop, trimVisits_eq_drop]
  by_cases hle : xs.length ≤ n
  · have : xs.length - n = 0 := by omega
    rw [this, List.drop_zero]
  · have hlenA : (xs.drop (xs.length - n)).length = n := by
      rw [List.length_drop]; omega
    have h1 : (xs.drop (xs.length - n) ++ [x]).length - n = 1 := by
      rw [List.length_append, hlenA]; simp
    have h2 : (xs ++ [x]).length - n = xs.length - n + 1 := by
      rw [List.length_append]; simp; omega
    rw [h1, h2]
    rw [List.drop_append_of_le_length (by rw [hlenA]; omega)]
    rw [List.drop_append_of_le_length (by omega)]
    rw [List.drop_drop]

theorem recordVisit_state (calcW : ℚ → Int → ℚ) (vd : VisitInput)
    (opts : WeightedOptions) (s : HState) (h : History)
    (ha : s.storage.avail = true) (hd : s.storage.data = some h) :
    (recordVisit calcW vd opts s).2.storage.avail = true
    ∧ (recordVisit calcW vd opts s).2.storage.data = some (recordVisit calcW vd opts s).1
    ∧ (recordVisit calcW vd opts s).2.now = s.now
    ∧ ((recordVisit calcW vd opts s).1).visits =
        trimVisits (orDefaultNat opts.maxHistorySize defaultMaxHistory)
          (h.visits ++ [mkVisit s.now vd]) := by
  unfold recordVisit getHistory readFromStorage writeToStorage
  simp [ha, hd]

theorem runVisits_stored (calcW : ℚ → Int → ℚ) (opts : WeightedOptions)
    (inputs : List VisitInput) :
    ∀ (s : HState) (h : History), s.storage.avail = true → s.storage.data = some h →
      ∃ h2 : History,
        (runVisits calcW opts inputs s).storage.avail = true
        ∧ (runVisits calcW opts inputs s).storage.data = some h2
        ∧ (runVisits calcW opts inputs s).now = s.now
        ∧ h2.visits = inputs.foldl
            (fun acc vd =>
              trimVisits (orDefaultNat opts.maxHistorySize defaultMaxHistory)
                (acc ++ [mkVisit s.now vd]))
            h.visits := by
  induction inputs with
  | nil =>
    intro s h ha hd
    exact ⟨h, ha, hd, rfl, rfl⟩
  | cons v rest ih =>
    intro s h ha hd
    obtain ⟨ha1, hd1, hnow1, hv1⟩ := recordVisit_state calcW v opts s h ha hd
    obtain ⟨h2, ha2, hd2, hnow2, hv2⟩ :=
      ih ((recordVisit calcW v opts s).2) ((recordVisit calcW v opts s).1) ha1 hd1
    have hrun : runVisits calcW opts (v :: rest) s =
        runVisits calcW opts rest ((recordVisit calcW v opts s).2) := by
      simp [runVisits]
    rw [hnow1] at hv2
    rw [hv1] at hv2
    refine ⟨h2, ?_, ?_, ?_, ?_⟩
    · rw [hrun]; exact ha2
    · rw [hrun]; exact hd2
    · rw [hrun, hnow2, hnow1]
    · rw [List.foldl_cons]; exact hv2

theorem foldTrim_general (mx : Nat) (hmx : 1 ≤ mx) (g : VisitInput → Visit) :
    ∀ (inputs : List VisitInput) (base : List Visit),
      inputs.foldl (fun acc vd => trimVisits mx (acc ++ [g vd])) (trimVisits mx base) =
        trimVisits mx (base ++ inputs.map g) := by
  intro inputs
  induction inputs with
  | nil => intro base; simp
  | cons v rest ih =>
    intro base
    rw [List.foldl_cons, trimVisits_idem_append mx hmx base (g v), ih (base ++ [g v])]
    simp

/-- C6: recording more than maxHistorySize visits leaves exactly
maxHistorySize persisted entries, and they are the most recently recorded
visits in their original recording order. -/
theorem claim_C6_historyTrim (calcW : ℚ → Int → ℚ) (opts : WeightedOptions)
    (m : Nat) (hm : 1 ≤ m) (hopt : opts.maxHistorySize = some m)
    (inputs : List VisitInput) (hlen : m < inputs.length)
    (s : HState) (h : History) (ha : s.storage.avail = true)
    (hd : s.storage.data = some h) (hv : h.visits = []) :
    ∃ h2 : History,
      (runVisits calcW opts inputs s).storage.data = some h2
      ∧ h2.visits.length = m
      ∧ h2.visits = (inputs.map (mkVisit s.now)).drop (inputs.length - m) := by
  have hmne : m ≠ 0 := by omega
  have hmx : orDefaultNat opts.maxHistorySize defaultMaxHistory = m := by
    simp [orDefaultNat, hopt, hmne]
  obtain ⟨h2, _, hd2, _, hv2⟩ := runVisits_stored calcW opts inputs s h ha hd
  rw [hmx, hv] at hv2
  have h0 : trimVisits m [] = [] := by rw [trimVisits_eq_drop]; simp
  have hfold := foldTrim_general m hm (mkVisit s.now) inputs []
  rw [h0, List.nil_append] at hfold
  rw [hfold, trimVisits_eq_drop, List.length_map] at hv2
  refine ⟨h2, hd2, ?_, hv2⟩
  rw [hv2, List.length_drop, List.length_map]
  omega

/-- Three visit inputs used to exercise trimming at bound 2. -/
def c6Inputs : List VisitInput :=
  [{ intent := some "a" }, { intent := some "b" }, { intent := some "c" }]

/-- An available history store holding an empty history. -/
def c6State : HState :=
  { storage := { avail := true
                 data := some { userId := "u", createdAt := 0, visits := [], preferences := [] } }
    uuids := fun _ => "u"
    next := 0
    now := 5 }

/-- C6 witness: recording three visits with bound 2 keeps the last two. -/
theorem claim_C6_historyTrim_witness :
    ∃ h2 : History,
      (runVisits (fun _ _ => 1) { maxHistorySize := some 2 } c6Inputs
          c6State).storage.data = some h2
      ∧ h2.visits.length = 2
      ∧ h2.visits = (c6Inputs.map (mkVisit c6State.now)).drop (c6Inputs.length - 2) :=
  claim_C6_historyTrim (fun _ _ => 1) { maxHistorySize := some 2 } 2 (by decide) rfl
    c6Inputs (by decide) c6State
    { userId := "u", createdAt := 0, visits := [], preferences := [] } rfl rfl rfl

/-- C10: after a recordVisit call that passes no maxWeighted option, the
recomputed preferences aggregate only the top defaultMaxWeighted (5)
highest-weight entries of the weighted view, even though the stored history
may retain up to maxHistorySize (default 10) visits. -/
theorem claim_C10_preferencesWindow (calcW : ℚ → Int → ℚ) (vd : VisitInput)
    (opts : WeightedOptions) (hopt : opts.maxWeighted = none) (s : HState) :
    ∃ ws : List WeightedVisit,
      ws = ((((recordVisit calcW vd opts s).1.visits.map
              (toWeighted calcW (orDefaultRat opts.decayRate defaultDecayRate))).mergeSort
              weightDesc).take defaultMaxWeighted)
      ∧ ws.length ≤ defaultMaxWeighted
      ∧ (recordVisit calcW vd opts s).1.preferences = aggregatePreferences ws
      ∧ (recordVisit calcW vd opts s).1.visits.length ≤
          orDefaultNat opts.maxHistorySize defaultMaxHistory := by
  refine ⟨_, rfl, List.length_take_le _ _, ?_, ?_⟩
  · show (recordVisit calcW vd opts s).1.preferences = _
    unfold recordVisit
    simp only
    unfold buildWeightedContext
    rw [hopt]
    simp only [orDefaultNat]
    split
    · next hemp =>
      congr 1
      rw [List.isEmpty_iff] at hemp
      rw [hemp]
      simp [List.mergeSort]
    · rfl
  · show (recordVisit calcW vd opts s).1.visits.length ≤ _
    unfold recordVisit
    simp only
    exact trimVisits_length_le _ _

/-- C10 witness: a concrete recordVisit without a maxWeighted option. -/
theorem claim_C10_preferencesWindow_witness :
    ∃ ws : List WeightedVisit,
      ws = ((((recordVisit (fun _ _ => 1) { intent := some "a" }
              { maxHistorySize := some 7 } c6State).1.visits.map
              (toWeighted (fun _ _ => 1)
                (orDefaultRat ({ maxHistorySize := some 7 } : WeightedOptions).decayRate
                  defaultDecayRate))).mergeSort
              weightDesc).take defaultMaxWeighted)
      ∧ ws.length ≤ defaultMaxWeighted
      ∧ (recordVisit (fun _ _ => 1) { intent := some "a" }
          { maxHistorySize := some 7 } c6State).1.preferences = aggregatePreferences ws
      ∧ (recordVisit (fun _ _ => 1) { intent := some "a" }
          { maxHistorySize := some 7 } c6State).1.visits.length ≤
          orDefaultNat ({ maxHistorySize := some 7 } : WeightedOptions).maxHistorySize
            defaultMaxHistory :=
  claim_C10_preferencesWindow (fun _ _ => 1) { intent := some "a" }
    { maxHistorySize := some 7 } rfl c6State

/-! ## Model response validation (ai-personalize.js)

A parsed model reply is a JSON object whose fields may each be absent or of
the wrong type; a field that is absent or not a string is modelled as none,
and the falsy check of the source additionally rejects the empty string. -/

/-- A parsed model reply. -/
structure ParsedResp where
  selectedVariant : Option String := none
  headline : Option String := none
  subheadline : Option String := none
  ctaLabel : Option String := none
  confidence : Option ℚ := none
  reasoning : Option String := none
deriving DecidableEq, Repr

/-- Result record of the response validators. -/
structure Validation where
  valid : Bool
  error : Option String := none
deriving DecidableEq, Repr

/-- The property names every plain object literal inherits from
Object.prototype; each holds a truthy value there (a function, or the
prototype object itself for the proto accessor). -/
def objectProtoKeys : List String :=
  ["constructor", "hasOwnProperty", "isPrototypeOf", "propertyIsEnumerable",
   "toLocaleString", "toString", "valueOf", "__proto__",
   "__defineGetter__", "__defineSetter__", "__lookupGetter__", "__lookupSetter__"]

/-- JS truthiness of the bracket lookup variants[k] on a plain object
literal: true for an own key (template records are truthy objects) and
also for a property inherited from Object.prototype, which the bracket
lookup of the source reaches through the prototype chain. -/
def jsLookupTruthy (variants : List (String × Template)) (k : String) : Bool :=
  (jsGet variants k).isSome || objectProtoKeys.contains k

/-- validateSelectResponse: the reply must be an object whose
selectedVariant is a truthy string that is truthy on the catalog object;
the source checks !variants[selectedVariant], a prototype-chain lookup, so
besides own catalog keys the names inherited from Object.prototype pass. -/
def validateSelectResponse (response : Option ParsedResp)
    (variants : List (String × Template)) : Validation :=
  match response with
  | none => { valid := false, error := some "Response is not an object" }
  | some r =>
    match r.selectedVariant with
    | none =>
      { valid := false, error := some "Missing or invalid selectedVariant field" }
    | some s =>
      if s = "" then
        { valid := false, error := some "Missing or invalid selectedVariant field" }
      else if jsLookupTruthy variants s then { valid := true }
      else
        { valid := false
          error := some ("Selected variant " ++ s ++ " does not exist in templates") }

/-- validateGenerateResponse: headline, subheadline and ctaLabel must all be
truthy strings. -/
def validateGenerateResponse (response : Option ParsedResp) : Validation :=
  match response with
  | none => { valid := false, error := some "Response is not an object" }
  | some r =>
    if (truthyOptStr r.headline).isNone then
      { valid := false, error := some "Missing or invalid headline field" }
    else if (truthyOptStr r.subheadline).isNone then
      { valid := false, error := some "Missing or invalid subheadline field" }
    else if (truthyOptStr r.ctaLabel).isNone then
      { valid := false, error := some "Missing or invalid ctaLabel field" }
    else { valid := true }

/-- C4 counterexample: the reply selecting constructor, a name that is not
a key of the gaming/professional/default catalog, still passes select-mode
validation, because the membership check of the source is a prototype-chain
bracket lookup on which every object literal inherits a truthy constructor
property; so an unknown key is not always an error. -/
theorem claim_C4_counterexample :
    (validateSelectResponse (some { selectedVariant := some "constructor" })
      [("gaming", {}), ("professional", {}), ("default", {})]).valid = true
    ∧ jsGet [("gaming", ({} : Template)), ("professional", {}), ("default", {})]
        "constructor" = none :=
  ⟨rfl, rfl⟩

/-- C4 amended: select-mode validation passes only when selectedVariant is
a non-empty string that is truthy on the catalog object, that is an own
catalog key or one of the property names every object literal inherits
from Object.prototype; for every other string an unknown key is an error
and never coerced. The concrete examples hold: selectedVariant nonexistent
against the gaming/professional/default catalog always fails, and
selectedVariant gaming with confidence 0.9 always passes, for every choice
of catalog template contents. -/
theorem claim_C4_selectValidation :
    (∀ (resp : Option ParsedResp) (variants : List (String × Template)),
      (validateSelectResponse resp variants).valid = true →
      ∃ r s, resp = some r ∧ r.selectedVariant = some s ∧ s ≠ ""
        ∧ ((jsGet variants s).isSome ∨ s ∈ objectProtoKeys))
    ∧ (∀ t1 t2 t3 : Template,
        (validateSelectResponse (some { selectedVariant := some "nonexistent" })
          [("gaming", t1), ("professional", t2), ("default", t3)]).valid = false)
    ∧ (∀ t1 t2 t3 : Template,
        (validateSelectResponse
          (some { selectedVariant := some "gaming", confidence := some (9 / 10) })
          [("gaming", t1), ("professional", t2), ("default", t3)]).valid = true) := by
  refine ⟨?_, ?_, ?_⟩
  · intro resp variants hvalid
    match resp with
    | none => simp [validateSelectResponse] at hvalid
    | some r =>
      match hs : r.selectedVariant with
      | none => simp [validateSelectResponse, hs] at hvalid
      | some s =>
        refine ⟨r, s, rfl, hs, ?_, ?_⟩
        · intro hempty
          subst hempty
          simp [validateSelectResponse, hs] at hvalid
        · by_cases hmem : jsLookupTruthy variants s = true
          · unfold jsLookupTruthy at hmem
            simp only [Bool.or_eq_true] at hmem
            rcases hmem with h | h
            · exact Or.inl h
            · exact Or.inr (by simpa using h)
          · by_cases hempty : s = "" <;>
              simp [validateSelectResponse, hs, hempty, hmem] at hvalid
  · intro t1 t2 t3
    simp [validateSelectResponse, jsLookupTruthy, jsGet, objectProtoKeys]
  · intro t1 t2 t3
    simp [validateSelectResponse, jsLookupTruthy, jsGet]

/-- C4 witness: the two catalog examples at a concrete catalog. -/
theorem claim_C4_selectValidation_witness :
    (validateSelectResponse (some { selectedVariant := some "nonexistent" })
      [("gaming", {}), ("professional", {}), ("default", {})]).valid = false
    ∧ (validateSelectResponse
        (some { selectedVariant := some "gaming", confidence := some (9 / 10) })
        [("gaming", {}), ("professional", {}), ("default", {})]).valid = true :=
  ⟨claim_C4_selectValidation.2.1 {} {} {}, claim_C4_selectValidation.2.2 {} {} {}⟩

/-! ## AI decision cache (ai-personalize.js)

The localStorage cache is modelled as an association list from cache key to
the stored entry; an entry is the JSON object writeCache persists, holding
the write-time timestamp and the decision. -/

/-- A persisted cache record. -/
structure CacheEntry where
  timestamp : Int
  decision : Decision
deriving DecidableEq, Repr

/-- The cache portion of localStorage. -/
abbrev Cache := List (String × CacheEntry)

/-- buildCacheKey: mode plus the truthy utm source, medium and campaign,
the referrer source and the device class, joined by underscores under the
cache prefix. -/
def buildCacheKey (context : VisitContext) (mode : String) : String :=
  let parts := [mode]
  let parts := parts ++
    (match truthyOptStr (jsGet context.utm "utm_source") with
     | some v => ["s:" ++ v]
     | none => [])
  let parts := parts ++
    (match truthyOptStr (jsGet context.utm "utm_medium") with
     | some v => ["m:" ++ v]
     | none => [])
  let parts := parts ++
    (match truthyOptStr (jsGet context.utm "utm_campaign") with
     | some v => ["c:" ++ v]
     | none => [])
  let parts := parts ++
    (match context.referrer with
     | some r => ["r:" ++ (if r.source = "" then "direct" else r.source)]
     | none => [])
  let parts := parts ++
    (match context.userAgent with
     | some ua =>
       ["d:" ++ (if ua.isMobile then "mob" else if ua.isTablet then "tab" else "desk")]
     | none => [])
  "lua_ai_cache_" ++ String.intercalate "_" parts

/-- readCache: a missing or malformed entry is a miss; an entry older than
cacheDuration is removed and is a miss; otherwise the stored decision is
returned. A zero timestamp is falsy and treated as malformed. -/
def readCache (cache : Cache) (now : Int) (cacheKey : String)
    (cacheDuration : Int) : Option Decision × Cache :=
  match jsGet cache cacheKey with
  | none => (none, cache)
  | some entry =>
    if entry.timestamp = 0 then (none, cache)
    else if now - entry.timestamp > cacheDuration then (none, jsRemove cache cacheKey)
    else (some entry.decision, cache)

/-- writeCache: store the decision together with the current timestamp. -/
def writeCache (cache : Cache) (now : Int) (cacheKey : String)
    (decision : Decision) : Cache :=
  jsSet cache cacheKey { timestamp := now, decision := decision }

/-- The cache-hit step of aiDecide: a hit is returned with its source field
rewritten to ai-cached. -/
def cacheHitStep (cache : Cache) (now : Int) (cacheKey : String)
    (cacheDuration : Int) : Option Decision × Cache :=
  match readCache cache now cacheKey cacheDuration with
  | (some d, c) => (some { d with source := "ai-cached" }, c)
  | (none, c) => (none, c)

theorem jsGet_jsSet_same {α : Type} (c : List (String × α)) (k : String) (v : α) :
    jsGet (jsSet c k v) k = some v := by
  induction c with
  | nil => simp [jsGet, jsSet]
  | cons p rest ih =>
    by_cases hk : p.1 == k
    · cases p
      simp_all [jsGet, jsSet]
    · cases p
      simp_all [jsGet, jsSet]

theorem jsGet_none_of_not_mem {α : Type} (c : List (String × α)) (k : String)
    (h : k ∉ c.map Prod.fst) : jsGet c k = none := by
  induction c with
  | nil => rfl
  | cons p rest ih =>
    simp only [List.map_cons, List.mem_cons] at h
    push_neg at h
    cases p with
    | mk k0 v0 =>
      have hne : (k0 == k) = false := by
        simp only [beq_eq_false_iff_ne]
        exact fun he => h.1 he.symm
      have hstep : jsGet ((k0, v0) :: rest) k = jsGet rest k := by
        simp [jsGet, List.find?, hne]
      rw [hstep]
      exact ih h.2

theorem jsGet_jsRemove_same {α : Type} (c : List (String × α)) (k : String)
    (hnd : (c.map Prod.fst).Nodup) : jsGet (jsRemove c k) k = none := by
  induction c with
  | nil => rfl
  | cons p rest ih =>
    cases p with
    | mk k0 v0 =>
      simp only [List.map_cons, List.nodup_cons] at hnd
      by_cases hk : k0 == k
      · have hkk : k0 = k := by simpa using hk
        subst hkk
        simp only [jsRemove, hk, if_pos]
        exact jsGet_none_of_not_mem rest k0 hnd.1
      · simp only [jsRemove, hk, if_neg, Bool.false_eq_true, not_false_iff]
        have : jsGet ((k0, v0) :: jsRemove rest k) k = jsGet (jsRemove rest k) k := by
          simp [jsGet, List.find?, hk]
        rw [this]
        exact ih hnd.2

theorem jsSet_map_fst_nodup {α : Type} (c : List (String × α)) (k : String) (v : α)
    (hnd : (c.map Prod.fst).Nodup) : ((jsSet c k v).map Prod.fst).Nodup := by
  induction c with
  | nil => simp [jsSet]
  | cons p rest ih =>
    cases p with
    | mk k0 v0 =>
      simp only [List.map_cons, List.nodup_cons] at hnd
      by_cases hk : k0 == k
      · simp only [jsSet, hk, if_pos, List.map_cons, List.nodup_cons]
        exact ⟨hnd.1, hnd.2⟩
      · simp only [jsSet, hk, Bool.false_eq_true, if_neg, not_false_iff,
          List.map_cons, List.nodup_cons]
        refine ⟨?_, ih hnd.2⟩
        intro hmem
        have hsub : (jsSet rest k v).map Prod.fst ⊆ k :: rest.map Prod.fst := by
          clear hmem ih hnd
          induction rest with
          | nil => simp [jsSet]
          | cons q qs ihq =>
            cases q with
            | mk kq vq =>
              by_cases hq : kq == k
              · simp only [jsSet, hq, if_pos, List.map_cons]
                intro x hx
                simp only [List.mem_cons] at hx ⊢
                tauto
              · simp only [jsSet, hq, Bool.false_eq_true, if_neg, not_false_iff,
                  List.map_cons]
                intro x hx
                simp only [List.mem_cons] at hx ⊢
                rcases hx with h1 | h2
                · tauto
                · have := ihq h2
                  simp only [List.mem_cons] at this
                  tauto
        have := hsub hmem
        simp only [List.mem_cons] at this
        rcases this with h1 | h2
        · exact absurd (by simpa using h1.symm ▸ rfl : (k0 == k) = true) hk
        · exact hnd.1 h2

/-- C3: a decision written to the cache and read back under the same key at
age at most the TTL comes back identical except that source is rewritten to
ai-cached and the store is unchanged; read back at age beyond the TTL it is
a miss and the stale entry is removed from the store. -/
theorem claim_C3_cacheRoundTrip (cache : Cache) (key : String) (d : Decision)
    (t now dur : Int) (ht : t ≠ 0) (hnd : (cache.map Prod.fst).Nodup) :
    (now - t ≤ dur →
      cacheHitStep (writeCache cache t key d) now key dur =
        (some { d with source := "ai-cached" }, writeCache cache t key d))
    ∧ (now - t > dur →
      readCache (writeCache cache t key d) now key dur =
        (none, jsRemove (writeCache cache t key d) key)
      ∧ jsGet ((readCache (writeCache cache t key d) now key dur).2) key = none) := by
  have hget : jsGet (writeCache cache t key d) key =
      some { timestamp := t, decision := d } := jsGet_jsSet_same cache key _
  constructor
  · intro hage
    have hnotexp : ¬ (now - t > dur) := by omega
    simp [cacheHitStep, readCache, hget, ht, hnotexp]
  · intro hexp
    have hrd : readCache (writeCache cache t key d) now key dur =
        (none, jsRemove (writeCache cache t key d) key) := by
      simp [readCache, hget, ht, hexp]
    refine ⟨hrd, ?_⟩
    rw [hrd]
    exact jsGet_jsRemove_same _ key (jsSet_map_fst_nodup cache key _ hnd)

/-- A concrete AI decision exercising the cache round trip. -/
def dC3 : Decision :=
  { template := some {}
    intent := "gaming"
    source := "ai"
    aiResponse := some
      { confidence := some (9 / 10)
        reasoning := none
        latency := 3
        model := "gpt-4o-mini"
        mode := "select"
        cached := false } }

/-- C3 witness: round trip at a concrete store, key and clock. -/
theorem claim_C3_cacheRoundTrip_witness :
    ((5 : Int) - 1 ≤ 10
      ∧ cacheHitStep (writeCache [] 1 "lua_ai_cache_select" dC3) 5
          "lua_ai_cache_select" 10 =
        (some { dC3 with source := "ai-cached" },
          writeCache [] 1 "lua_ai_cache_select" dC3))
    ∧ ((100 : Int) - 1 > 10
      ∧ readCache (writeCache [] 1 "lua_ai_cache_select" dC3) 100
          "lua_ai_cache_select" 10 =
        (none, jsRemove (writeCache [] 1 "lua_ai_cache_select" dC3)
          "lua_ai_cache_select")) :=
  ⟨⟨by decide,
    (claim_C3_cacheRoundTrip [] "lua_ai_cache_select" dC3 1 5 10 (by decide)
      (by simp)).1 (by decide)⟩,
   ⟨by decide,
    ((claim_C3_cacheRoundTrip [] "lua_ai_cache_select" dC3 1 100 10 (by decide)
      (by simp)).2 (by decide)).1⟩⟩

/-! ## AI configuration (ai-personalize.js normalizeConfig) -/

/-- Raw caller-supplied AI configuration; an absent field is none. -/
structure RawAIConfig where
  apiKey : Option String := none
  apiUrl : Option String := none
  model : Option String := none
  temperature : Option ℚ := none
  maxTokens : Option Nat := none
  mode : Option String := none
  timeout : Option Nat := none
  maxRetries : Option Nat := none
  fallbackToStandard : Option Bool := none
  cacheDecisions : Option Bool := none
  cacheDuration : Option Int := none
  historyEnabled : Option Bool := none
  historyDecayRate : Option ℚ := none
  maxHistorySize : Option Nat := none
deriving DecidableEq, Repr

/-- Normalized configuration with all defaults applied. -/
structure NormConfig where
  apiKey : Option String
  apiUrl : String
  useDirectApi : Bool
  model : String
  temperature : ℚ
  maxTokens : Nat
  mode : String
  timeout : Nat
  maxRetries : Nat
  fallbackToStandard : Bool
  cacheDecisions : Bool
  cacheDuration : Int
  historyEnabled : Bool
  historyDecayRate : ℚ
  maxHistorySize : Nat
deriving DecidableEq, Repr

/-- The whitespace trim of JS String.prototype.trim, over the character
list. -/
def jsTrim (s : String) : String :=
  String.mk (((s.data.dropWhile Char.isWhitespace).reverse.dropWhile
    Char.isWhitespace).reverse)

/-- Is this optional field a string with non-blank content? -/
def hasText (o : Option String) : Bool :=
  match o with
  | some s => jsTrim s ≠ ""
  | none => false

/-- The error message of a config missing both connection fields. -/
def missingConnError : String :=
  "AI config requires either apiKey (for direct OpenAI) or apiUrl (for proxy endpoint)"

/-- The direct OpenAI chat-completions endpoint (OPENAI_BASE_URL). -/
def openaiBaseUrl : String := "https://api.openai.com/v1/chat/completions"

/-- normalizeConfig: reject a non-object config or one with neither apiKey
nor apiUrl, otherwise normalize with defaults; an apiUrl wins over a direct
key. -/
def normalizeConfig (config : Option RawAIConfig) : Except String NormConfig :=
  match config with
  | none => Except.error "AI config must be an object"
  | some c =>
    let hasApiKey := hasText c.apiKey
    let hasApiUrl := hasText c.apiUrl
    if !hasApiKey && !hasApiUrl then Except.error missingConnError
    else
      Except.ok
        { apiKey := if hasApiKey then some (jsTrim (c.apiKey.getD "")) else none
          apiUrl := if hasApiUrl then jsTrim (c.apiUrl.getD "") else openaiBaseUrl
          useDirectApi := hasApiKey && !hasApiUrl
          model := orDefaultStr c.model "gpt-4o-mini"
          temperature := c.temperature.getD (7 / 10)
          maxTokens := c.maxTokens.getD 500
          mode := if c.mode = some "generate" then "generate" else "select"
          timeout := c.timeout.getD 5000
          maxRetries := c.maxRetries.getD 1
          fallbackToStandard := c.fallbackToStandard != some false
          cacheDecisions := c.cacheDecisions != some false
          cacheDuration := c.cacheDuration.getD 3600000
          historyEnabled := c.historyEnabled != some false
          historyDecayRate := c.historyDecayRate.getD (9 / 10)
          maxHistorySize := c.maxHistorySize.getD 10 }

/-! ## Decision engine (ai-personalize.js aiDecide, personalization.js) -/

/-- A custom matching rule: accepts models the match predicate of the rule,
intent the optional intent override. -/
structure Rule where
  accepts : VisitContext → Bool
  intent : Option String := none

/-- Caller options of decide and personalize. -/
structure DecideOptions where
  templates : List (String × Template) := []
  rules : List (String × Rule) := []
  randomFallback : Option Bool := none
  enableAI : Bool := false
  aiConfig : Option RawAIConfig := none
  context : Option VisitContext := none

/-- Ambient environment and mutable state of one decision request: the
gateway maps the attempt index to the outcome of that model call (the
prompt text, being pure data the abstract transport ignores, is not
materialized), cache and hstate are the two localStorage regions, the
module flags model which script files were loaded, elapsed is the measured
model-call latency, and rand the Math.random draw behind the uniform
A/B pick. -/
structure AIEnv where
  gateway : Nat → Except String ParsedResp
  cache : Cache
  hstate : HState
  historyLoaded : Bool := true
  promptsLoaded : Bool := true
  aiModuleLoaded : Bool := true
  utmContext : Option VisitContext := none
  calcW : ℚ → Int → ℚ
  now : Int
  elapsed : Int := 0
  rand : Nat := 0

/-- isReady: the config must normalize and the prompts module be loaded. -/
def isReady (promptsLoaded : Bool) (aiConfig : Option RawAIConfig) :
    Except String Unit :=
  match normalizeConfig aiConfig with
  | Except.error e => Except.error e
  | Except.ok _ =>
    if promptsLoaded then Except.ok () else Except.error "LuaPrompts module not loaded"

/-- Outcome of aiDecide: the settled promise plus the state it left behind
and the number of gateway attempts it made. -/
structure AIOutcome where
  result : Except String Decision
  cache : Cache
  hstate : HState
  attempts : Nat

/-- The decision built from a validated select-mode reply. -/
def mkSelectDecision (config : NormConfig) (context : VisitContext)
    (templates : List (String × Template)) (resp : ParsedResp)
    (latency : Int) : Decision :=
  { template := jsGet templates (resp.selectedVariant.getD "")
    intent := resp.selectedVariant.getD ""
    source := "ai"
    context := context
    aiResponse := some
      { confidence := truthyOptRat resp.confidence
        reasoning := truthyOptStr resp.reasoning
        latency := latency
        model := config.model
        mode := "select"
        cached := false } }

/-- The decision built from a validated generate-mode reply; link and image
fall back to the default template, then to the shop link and no image. -/
def mkGenerateDecision (config : NormConfig) (context : VisitContext)
    (templates : List (String × Template)) (resp : ParsedResp)
    (latency : Int) : Decision :=
  let defaultTpl := jsGet templates "default"
  { template := some
      { headline := resp.headline.getD ""
        subheadline := resp.subheadline.getD ""
        ctaLabel := resp.ctaLabel.getD ""
        ctaLink := some (orDefaultStr (defaultTpl.bind (fun t => t.ctaLink)) "/shop")
        image := defaultTpl.bind (fun t => truthyOptStr t.image) }
    intent := "ai-generated"
    source := "ai"
    context := context
    aiResponse := some
      { confidence := truthyOptRat resp.confidence
        reasoning := truthyOptStr resp.reasoning
        latency := latency
        model := config.model
        mode := "generate"
        cached := false } }

/-- aiDecide: normalize the config, consult the cache, refresh history,
require the prompts module, call the gateway with retry, validate the reply
per mode, then cache the decision and record the visit. -/
def aiDecide (env : AIEnv) (context : VisitContext) (options : DecideOptions) :
    AIOutcome :=
  match normalizeConfig options.aiConfig with
  | Except.error e =>
    { result := Except.error ("[Lua AI] " ++ e)
      cache := env.cache
      hstate := env.hstate
      attempts := 0 }
  | Except.ok config =>
    let templates := options.templates
    let cacheKey := buildCacheKey context config.mode
    let cacheRead :=
      if config.cacheDecisions then cacheHitStep env.cache env.now cacheKey config.cacheDuration
      else (none, env.cache)
    match cacheRead.1 with
    | some cached =>
      { result := Except.ok cached
        cache := cacheRead.2
        hstate := env.hstate
        attempts := 0 }
    | none =>
      let hstate1 :=
        if config.historyEnabled && env.historyLoaded then (getHistory env.hstate).2
        else env.hstate
      if !env.promptsLoaded then
        { result := Except.error "[Lua AI] LuaPrompts module not loaded"
          cache := cacheRead.2
          hstate := hstate1
          attempts := 0 }
      else
        let call := callWithRetry env.gateway config.maxRetries 0
        let attempts := call.2.length + 1
        match call.1 with
        | Except.error e =>
          { result := Except.error e
            cache := cacheRead.2
            hstate := hstate1
            attempts := attempts }
        | Except.ok resp =>
          let validation :=
            if config.mode = "select" then validateSelectResponse (some resp) templates
            else validateGenerateResponse (some resp)
          if validation.valid then
            let decision :=
              if config.mode = "select" then
                mkSelectDecision config context templates resp env.elapsed
              else mkGenerateDecision config context templates resp env.elapsed
            let cache2 :=
              if config.cacheDecisions then
                writeCache cacheRead.2 env.now (buildCacheKey context config.mode) decision
              else cacheRead.2
            let hstate2 :=
              if config.historyEnabled && env.historyLoaded then
                (recordVisit env.calcW
                  { context := some context
                    intent := some decision.intent
                    selectedVariant := some decision.intent
                    source := some "ai"
                    aiDecision := true }
                  { maxHistorySize := some config.maxHistorySize } hstate1).2
              else hstate1
            { result := Except.ok decision
              cache := cache2
              hstate := hstate2
              attempts := attempts }
          else
            { result := Except.error
                ((if config.mode = "select" then "Invalid AI selection: "
                  else "Invalid AI generation: ") ++ validation.error.getD "")
              cache := cacheRead.2
              hstate := hstate1
              attempts := attempts }

/-- getTemplate: look up the intent, fall back to the default entry, then
to the first declared entry. -/
def getTemplate (intent : String) (userTemplates : List (String × Template)) :
    Option Template :=
  match jsGet userTemplates intent with
  | some t => some t
  | none =>
    match jsGet userTemplates "default" with
    | some t => some t
    | none => (userTemplates.head?).map (fun p => p.2)

/-- getRandomFallbackIntent: a uniformly weighted random pick among the
catalog keys, modelled by indexing the key list with the random draw. -/
def getRandomFallbackIntent (userTemplates : List (String × Template))
    (rand : Nat) : Option String :=
  let names := userTemplates.map Prod.fst
  if names.isEmpty then none else names.get? (rand % names.length)

/-- Outcome of a standardDecide call: the decision and the history state it
left behind. -/
structure StdOutcome where
  decision : Decision
  hstate : HState

/-- Source classification of standardDecide before the rule scan: utm wins,
then a non-direct referrer, else default. -/
def baseSource (context : VisitContext) : String :=
  if context.hasUTM then "utm"
  else
    match context.referrer with
    | some r => if r.category ≠ "direct" then "referrer" else "default"
    | none => "default"

/-- Intent and source after the custom-rule scan: the first rule whose
predicate accepts the context wins, its intent falling back to its key. -/
def afterRuleStep (context : VisitContext) (options : DecideOptions) :
    String × String :=
  match options.rules.find? (fun p => p.2.accepts context) with
  | some p => (orDefaultStr p.2.intent p.1, "custom-rule")
  | none => (context.primaryIntent, baseSource context)

/-- Intent and source after the random A/B fallback: when both are still
default and random fallback is not disabled, a random catalog key is
picked. -/
def afterRandomStep (env : AIEnv) (context : VisitContext)
    (options : DecideOptions) : String × String :=
  let ar := afterRuleStep context options
  if ar.1 = "default" ∧ ar.2 = "default" ∧ options.randomFallback ≠ some false then
    match getRandomFallbackIntent options.templates env.rand with
    | some ri => (ri, "random-ab")
    | none => ar
  else ar

/-- standardDecide: the deterministic engine. Source is utm, referrer or
default from the context; the first matching custom rule overrides both;
an all-default outcome with random fallback enabled picks a random catalog
key; the visit is recorded when the history module is loaded. -/
def standardDecide (env : AIEnv) (context : VisitContext)
    (options : DecideOptions) : StdOutcome :=
  if options.templates.isEmpty then
    { decision :=
        { template := none
          intent := "default"
          source := "error"
          context := context
          error := some "No templates provided" }
      hstate := env.hstate }
  else
    let afterRandom := afterRandomStep env context options
    let hstate2 :=
      if env.historyLoaded then
        (recordVisit env.calcW
          { context := some context
            intent := some afterRandom.1
            selectedVariant := some afterRandom.1
            source := some afterRandom.2
            aiDecision := false }
          {} env.hstate).2
      else env.hstate
    { decision :=
        { template := getTemplate afterRandom.1 options.templates
          intent := afterRandom.1
          source := afterRandom.2
          context := context }
      hstate := hstate2 }

/-- Outcome of decide and personalize. -/
structure DecideOutcome where
  result : Except String Decision
  cache : Cache
  hstate : HState
  attempts : Nat

/-- DecisionEngine.decide: with AI enabled, configured and its module
loaded, a ready configuration routes to aiDecide, whose rejection falls
back to the standard engine unless fallbackToStandard is false; a not-ready
configuration and the non-AI case use the standard engine directly. -/
def decide (env : AIEnv) (context : VisitContext) (options : DecideOptions) :
    DecideOutcome :=
  if options.enableAI && options.aiConfig.isSome && env.aiModuleLoaded then
    match isReady env.promptsLoaded options.aiConfig with
    | Except.ok _ =>
      let ai := aiDecide env context options
      match ai.result with
      | Except.ok d =>
        { result := Except.ok d
          cache := ai.cache
          hstate := ai.hstate
          attempts := ai.attempts }
      | Except.error e =>
        if (options.aiConfig.getD {}).fallbackToStandard != some false then
          let std := standardDecide { env with cache := ai.cache, hstate := ai.hstate }
            context options
          { result := Except.ok std.decision
            cache := ai.cache
            hstate := std.hstate
            attempts := ai.attempts }
        else
          { result := Except.error e
            cache := ai.cache
            hstate := ai.hstate
            attempts := ai.attempts }
    | Except.error _ =>
      let std := standardDecide env context options
      { result := Except.ok std.decision
        cache := env.cache
        hstate := std.hstate
        attempts := 0 }
  else
    let std := standardDecide env context options
    { result := Except.ok std.decision
      cache := env.cache
      hstate := std.hstate
      attempts := 0 }

/-- The minimal context resolveContext synthesizes when no UTM module is
available. -/
def minimalDefaultContext (now : Int) : VisitContext :=
  { utm := []
    referrer := some {}
    userAgent := some {}
    timestamp := now
    hasUTM := false
    primaryIntent := "default" }

/-- resolveContext: the caller-supplied context, else the one of the UTM module,
else the minimal default. -/
def resolveContext (env : AIEnv) (options : DecideOptions) : VisitContext :=
  match options.context with
  | some c => c
  | none =>
    match env.utmContext with
    | some c => c
    | none => minimalDefaultContext env.now

/-- personalize: require templates, resolve the context, run decide; a
rejected AI decision is caught and replaced by a standard-engine decision
(the DOM application is a pass-through on the decision and is omitted). -/
def personalize (env : AIEnv) (options : DecideOptions) : DecideOutcome :=
  if options.templates.isEmpty then
    { result := Except.ok
        { template := none
          intent := "default"
          source := "error"
          context := {}
          error := some "No templates provided" }
      cache := env.cache
      hstate := env.hstate
      attempts := 0 }
  else
    let context := resolveContext env options
    let d := decide env context options
    match d.result with
    | Except.ok _ => d
    | Except.error _ =>
      let std := standardDecide { env with cache := d.cache, hstate := d.hstate }
        context options
      { result := Except.ok std.decision
        cache := d.cache
        hstate := std.hstate
        attempts := d.attempts }

/-- The AI-sourced decision sources. -/
def aiSource (s : String) : Prop := s = "ai" ∨ s = "ai-cached"

/-- The modelResponse invariant of a decision: an AI source carries a
non-null aiResponse record, every other source carries none. -/
def decisionInv (d : Decision) : Prop :=
  (aiSource d.source → d.aiResponse.isSome = true)
  ∧ (¬ aiSource d.source → d.aiResponse = none)

theorem afterRandomStep_source (env : AIEnv) (context : VisitContext)
    (options : DecideOptions) :
    (afterRandomStep env context options).2 = "custom-rule"
    ∨ (afterRandomStep env context options).2 = "utm"
    ∨ (afterRandomStep env context options).2 = "referrer"
    ∨ (afterRandomStep env context options).2 = "default"
    ∨ (afterRandomStep env context options).2 = "random-ab" := by
  have hbase : baseSource context = "utm" ∨ baseSource context = "referrer"
      ∨ baseSource context = "default" := by
    unfold baseSource
    split
    · exact Or.inl rfl
    · split
      · split
        · exact Or.inr (Or.inl rfl)
        · exact Or.inr (Or.inr rfl)
      · exact Or.inr (Or.inr rfl)
  have hrule : (afterRuleStep context options).2 = "custom-rule"
      ∨ (afterRuleStep context options).2 = baseSource context := by
    unfold afterRuleStep
    split
    · exact Or.inl rfl
    · exact Or.inr rfl
  unfold afterRandomStep
  simp only
  split
  · split
    · tauto
    · rcases hrule with h | h
      · tauto
      · rw [h]; tauto
  · rcases hrule with h | h
    · tauto
    · rw [h]; tauto

theorem standardDecide_inv (env : AIEnv) (context : VisitContext)
    (options : DecideOptions) :
    decisionInv (standardDecide env context options).decision := by
  have hne : ∀ s : String,
      s = "error" ∨ s = "custom-rule" ∨ s = "utm" ∨ s = "referrer"
        ∨ s = "default" ∨ s = "random-ab" → ¬ aiSource s := by
    intro s hs hai
    rcases hai with ha | ha <;> subst ha <;>
      rcases hs with h | h | h | h | h | h <;> exact absurd h (by decide)
  unfold standardDecide
  split
  · exact ⟨fun hai => absurd hai (hne "error" (Or.inl rfl)), fun _ => rfl⟩
  · simp only
    constructor
    · intro hai
      exact absurd hai (hne _ (Or.inr (afterRandomStep_source env context options)))
    · intro _
      rfl

theorem jsGet_mem {α : Type} (c : List (String × α)) (k : String) (v : α)
    (h : jsGet c k = some v) : ∃ p ∈ c, p.2 = v := by
  unfold jsGet at h
  cases hf : c.find? (fun p => p.1 == k) with
  | none => rw [hf] at h; simp at h
  | some p =>
    rw [hf] at h
    refine ⟨p, List.mem_of_find?_eq_some hf, ?_⟩
    have h2 : some p.2 = some v := h
    injection h2

theorem cacheHitStep_some (cache : Cache) (now : Int) (key : String) (dur : Int)
    (d : Decision) (h : (cacheHitStep cache now key dur).1 = some d) :
    ∃ e : CacheEntry, jsGet cache key = some e
      ∧ d = { e.decision with source := "ai-cached" } := by
  unfold cacheHitStep readCache at h
  cases hg : jsGet cache key with
  | none => rw [hg] at h; simp at h
  | some e =>
    rw [hg] at h
    refine ⟨e, rfl, ?_⟩
    by_cases h0 : e.timestamp = 0
    · simp [h0] at h
    · by_cases hexp : now - e.timestamp > dur
      · simp [h0, hexp] at h
      · simp [h0, hexp] at h
        exact h.symm

theorem mkSelectDecision_inv (config : NormConfig) (context : VisitContext)
    (templates : List (String × Template)) (resp : ParsedResp) (latency : Int) :
    decisionInv (mkSelectDecision config context templates resp latency) := by
  constructor
  · intro _; rfl
  · intro hna
    exact absurd (Or.inl rfl) hna

theorem mkGenerateDecision_inv (config : NormConfig) (context : VisitContext)
    (templates : List (String × Template)) (resp : ParsedResp) (latency : Int) :
    decisionInv (mkGenerateDecision config context templates resp latency) := by
  constructor
  · intro _; rfl
  · intro hna
    exact absurd (Or.inl rfl) hna

theorem aiDecide_ok_inv (env : AIEnv) (context : VisitContext)
    (options : DecideOptions)
    (hcache : ∀ p ∈ env.cache, (Prod.snd p).decision.aiResponse.isSome = true) :
    ∀ d, (aiDecide env context options).result = Except.ok d → decisionInv d := by
  intro d hd
  unfold aiDecide at hd
  cases hnc : normalizeConfig options.aiConfig with
  | error e => rw [hnc] at hd; simp at hd
  | ok config =>
    simp only [hnc] at hd
    split at hd
    · next cached hcr =>
      simp only [Except.ok.injEq] at hd
      subst hd
      split at hcr
      · obtain ⟨e, hg, hde⟩ := cacheHitStep_some _ _ _ _ _ hcr
        obtain ⟨p, hp, hpe⟩ := jsGet_mem _ _ _ hg
        constructor
        · intro _
          rw [hde]
          simpa [hpe] using hcache p hp
        · intro hna
          exact absurd (Or.inr (by rw [hde])) hna
      · simp at hcr
    · split at hd
      · simp at hd
      · split at hd
        · simp at hd
        · next resp hcall =>
          split at hd
          · -- select mode
            split at hd
            · simp only [Except.ok.injEq] at hd
              subst hd
              exact mkSelectDecision_inv _ _ _ _ _
            · simp at hd
          · -- generate mode
            split at hd
            · simp only [Except.ok.injEq] at hd
              subst hd
              exact mkGenerateDecision_inv _ _ _ _ _
            · simp at hd

/-- C5: every decision an engine path resolves with (AI select, AI
generate, cache hit, deterministic, and the personalize wrapper including
its templates-missing error decision) has a non-null aiResponse exactly
when its source is ai or ai-cached, provided every cached entry was
produced by a prior successful AI decision and hence carries an aiResponse
record. -/
theorem claim_C5_sourceInvariant (env : AIEnv) (context : VisitContext)
    (options : DecideOptions)
    (hcache : ∀ p ∈ env.cache, (Prod.snd p).decision.aiResponse.isSome = true) :
    (∀ d, (decide env context options).result = Except.ok d → decisionInv d)
    ∧ (∀ d, (personalize env options).result = Except.ok d → decisionInv d) := by
  have hdec : ∀ ctx d, (decide env ctx options).result = Except.ok d → decisionInv d := by
    intro ctx d hd
    unfold decide at hd
    by_cases hcond :
        (options.enableAI && options.aiConfig.isSome && env.aiModuleLoaded) = true
    · rw [if_pos hcond] at hd
      cases hir : isReady env.promptsLoaded options.aiConfig with
      | ok u =>
        simp only [hir] at hd
        cases hai : (aiDecide env ctx options).result with
        | ok d0 =>
          simp only [hai] at hd
          simp only [Except.ok.injEq] at hd
          subst hd
          exact aiDecide_ok_inv env ctx options hcache d0 hai
        | error e =>
          simp only [hai] at hd
          by_cases hfb :
              ((options.aiConfig.getD {}).fallbackToStandard != some false) = true
          · rw [if_pos hfb] at hd
            simp only [Except.ok.injEq] at hd
            subst hd
            exact standardDecide_inv _ _ _
          · rw [if_neg hfb] at hd
            simp at hd
      | error e =>
        simp only [hir] at hd
        simp only [Except.ok.injEq] at hd
        subst hd
        exact standardDecide_inv _ _ _
    · rw [if_neg hcond] at hd
      simp only [Except.ok.injEq] at hd
      subst hd
      exact standardDecide_inv _ _ _
  refine ⟨hdec context, ?_⟩
  intro d hd
  unfold personalize at hd
  split at hd
  · simp only [Except.ok.injEq] at hd
    subst hd
    refine ⟨fun hai => ?_, fun _ => rfl⟩
    rcases hai with h | h <;> exact absurd h (by decide)
  · cases hres : (decide env (resolveContext env options) options).result with
    | ok d0 =>
      simp only [hres] at hd
      have hd2 : d0 = d := by
        simpa [hres] using hd
      subst hd2
      exact hdec _ d0 hres
    | error e =>
      simp only [hres] at hd
      simp only [Except.ok.injEq] at hd
      subst hd
      exact standardDecide_inv _ _ _

/-! ## Concrete scenarios for the decision-policy claims -/

/-- A history state whose backing storage is switched off. -/
def hsOff : HState :=
  { storage := { avail := false, data := none }
    uuids := fun _ => "u"
    next := 0
    now := 0 }

/-- A reddit gaming-campaign context. -/
def ctxUtm : VisitContext :=
  { utm := [("utm_source", "reddit"), ("utm_campaign", "gaming_console")]
    referrer := none
    userAgent := none
    timestamp := 0
    hasUTM := true
    primaryIntent := "gaming" }

/-- Environment with an AI config missing both connection fields. -/
def envC2 : AIEnv :=
  { gateway := fun _ => Except.error "unused"
    cache := []
    hstate := hsOff
    historyLoaded := false
    promptsLoaded := true
    aiModuleLoaded := true
    utmContext := none
    calcW := fun _ _ => 1
    now := 0 }

/-- Options enabling AI with an empty AI config. -/
def optsC2 : DecideOptions :=
  { templates := [("gaming", {})]
    enableAI := true
    aiConfig := some {} }

/-- C2 counterexample: a decision request with AI enabled whose aiConfig
has neither apiKey nor apiUrl is not rejected by DecisionEngine.decide; it
resolves with a deterministic standard-engine decision and never touches
the gateway. -/
theorem claim_C2_counterexample :
    (decide envC2 ctxUtm optsC2).result =
      Except.ok
        { template := some {}, intent := "gaming", source := "utm", context := ctxUtm }
    ∧ (decide envC2 ctxUtm optsC2).attempts = 0 :=
  ⟨rfl, rfl⟩

/-- C2 amended: aiDecide itself rejects a config missing both apiKey and
apiUrl immediately, without any gateway attempt, cache change or history
change; DecisionEngine.decide, however, detects the invalid config through
isReady and resolves with the standard engine instead of rejecting. -/
theorem claim_C2_amended (env : AIEnv) (context : VisitContext)
    (options : DecideOptions) (c : RawAIConfig) (hc : options.aiConfig = some c)
    (hk : hasText c.apiKey = false) (hu : hasText c.apiUrl = false) :
    (aiDecide env context options).result =
      Except.error ("[Lua AI] " ++ missingConnError)
    ∧ (aiDecide env context options).attempts = 0
    ∧ (aiDecide env context options).cache = env.cache
    ∧ (aiDecide env context options).hstate = env.hstate
    ∧ (options.enableAI = true → env.aiModuleLoaded = true →
        decide env context options =
          { result := Except.ok (standardDecide env context options).decision
            cache := env.cache
            hstate := (standardDecide env context options).hstate
            attempts := 0 }) := by
  have hnc : normalizeConfig options.aiConfig = Except.error missingConnError := by
    rw [hc]
    unfold normalizeConfig
    simp [hk, hu]
  have hai : aiDecide env context options =
      { result := Except.error ("[Lua AI] " ++ missingConnError)
        cache := env.cache
        hstate := env.hstate
        attempts := 0 } := by
    unfold aiDecide
    rw [hnc]
  refine ⟨by rw [hai], by rw [hai], by rw [hai], by rw [hai], ?_⟩
  intro hen ham
  have hcond :
      (options.enableAI && options.aiConfig.isSome && env.aiModuleLoaded) = true := by
    simp [hen, ham, hc]
  have hir : isReady env.promptsLoaded options.aiConfig =
      Except.error missingConnError := by
    unfold isReady
    rw [hnc]
  unfold decide
  rw [if_pos hcond]
  simp only [hir]

/-- C2 witness: the amended behavior at the concrete empty config. -/
theorem claim_C2_amended_witness :
    (aiDecide envC2 ctxUtm optsC2).result =
      Except.error ("[Lua AI] " ++ missingConnError)
    ∧ (aiDecide envC2 ctxUtm optsC2).attempts = 0
    ∧ (aiDecide envC2 ctxUtm optsC2).cache = envC2.cache
    ∧ (aiDecide envC2 ctxUtm optsC2).hstate = envC2.hstate
    ∧ (optsC2.enableAI = true → envC2.aiModuleLoaded = true →
        decide envC2 ctxUtm optsC2 =
          { result := Except.ok (standardDecide envC2 ctxUtm optsC2).decision
            cache := envC2.cache
            hstate := (standardDecide envC2 ctxUtm optsC2).hstate
            attempts := 0 }) :=
  claim_C2_amended envC2 ctxUtm optsC2 {} rfl rfl rfl

/-- The AI config of the no-fallback scenario: a key, a zero retry budget,
fallback disabled, cache and history off. -/
def aiCfgC1 : RawAIConfig :=
  { apiKey := some "sk-test"
    maxRetries := some 0
    fallbackToStandard := some false
    cacheDecisions := some false
    historyEnabled := some false }

/-- Environment whose gateway fails every attempt. -/
def envC1 : AIEnv :=
  { gateway := fun _ => Except.error "boom"
    cache := []
    hstate := hsOff
    historyLoaded := false
    promptsLoaded := true
    aiModuleLoaded := true
    utmContext := none
    calcW := fun _ _ => 1
    now := 0 }

/-- Options for the no-fallback scenario. -/
def optsC1 : DecideOptions :=
  { templates := [("gaming", {})]
    enableAI := true
    aiConfig := some aiCfgC1
    context := some ctxUtm }

/-- C1 (code divergence): with fallbackToStandard false and a hard AI
failure, DecisionEngine.decide propagates the rejection unchanged, but
personalize catches that rejection and resolves with a standard-engine
decision anyway, so the caller of personalize never sees the failure; with
fallback left enabled the same failure falls through to the deterministic
decision computed from the same context. -/
theorem claim_C1_fallbackDivergence :
    (decide envC1 ctxUtm optsC1).result = Except.error "boom"
    ∧ (personalize envC1 optsC1).result =
        Except.ok
          { template := some {}, intent := "gaming", source := "utm", context := ctxUtm }
    ∧ (decide envC1 ctxUtm
          { optsC1 with
            aiConfig := some { aiCfgC1 with fallbackToStandard := none } }).result =
        Except.ok
          { template := some {}, intent := "gaming", source := "utm", context := ctxUtm } :=
  ⟨rfl, rfl, rfl⟩

/-- C5 witness: the invariant of the concrete utm-sourced decision produced
by decide at the empty cache. -/
theorem claim_C5_sourceInvariant_witness :
    decisionInv
      { template := some {}, intent := "gaming", source := "utm", context := ctxUtm } :=
  (claim_C5_sourceInvariant envC2 ctxUtm optsC2
      (by intro p hp; simp [envC2] at hp)).1
    { template := some {}, intent := "gaming", source := "utm", context := ctxUtm } rfl

end LuaPkg
